import Mathlib

/-!
Shallow embedding of the multi-agency identity and access-control core:
the X.509 certificate chain validator and secure session token manager
(src/unnamed/part_000), and the government authentication manager with its
agency authorization policy engine
(src/automation-workflow/gov-workflow-logging-compliance.ts).

JavaScript millisecond timestamps are embedded as `Nat`; the ambient
`Date.now()` clock is passed as an explicit `now` parameter; `Map` objects
are embedded as insertion-ordered association lists with replace-on-set.
-/

/-- Access levels, from the `AccessLevel` enum
(gov-workflow-logging-compliance.ts lines 437-443). -/
inductive AccessLevel where
  | RESTRICTED
  | STANDARD
  | PRIVILEGED
  | EXECUTIVE
  | SYSTEM_ADMIN
deriving DecidableEq, Repr

/-- Certificate purposes, from the `CertificatePurpose` enum
(src/unnamed/part_000 lines 356-360). -/
inductive CertificatePurpose where
  | AUTHENTICATION
  | DIGITAL_SIGNATURE
  | ENCRYPTION
deriving DecidableEq, Repr

/-- A parsed chain element. The source parses certificates from strings via
the undisplayed helper `parseCertificate`; the embedding works directly with
parsed certificates carrying the attributes the validation checks consult
(spec section 3, "Certificate"). -/
structure Certificate where
  subject : String
  issuer : String
  notBefore : Nat
  notAfter : Nat
  signatureAlgorithm : String
  keyUsage : List String
deriving DecidableEq, Repr

/-- `validationConfig.MAX_CHAIN_DEPTH` (src/unnamed/part_000 line 150). -/
def MAX_CHAIN_DEPTH : Nat := 5

/-- `validationConfig.ALLOWED_SIGNATURE_ALGORITHMS`
(src/unnamed/part_000 lines 153-159). -/
def ALLOWED_SIGNATURE_ALGORITHMS : List String :=
  ["SHA256withRSA", "SHA384withRSA", "SHA512withRSA", "ECDSA_SHA256", "ECDSA_SHA384"]

/-- `validationConfig.REQUIRED_KEY_USAGE` (src/unnamed/part_000 lines 162-165). -/
def REQUIRED_KEY_USAGE : List String :=
  ["digitalSignature", "keyEncipherment"]

/-- Modelled from the spec: the helper `isWithinValidityPeriod` is called at
src/unnamed/part_000 line 184 but not defined under src/; per spec section
4.1 check 2, the current time must lie within [notBefore, notAfter]. -/
def isWithinValidityPeriod (c : Certificate) (now : Nat) : Bool :=
  decide (c.notBefore ≤ now) && decide (now ≤ c.notAfter)

/-- Modelled from the spec: the helper `isAllowedSignatureAlgorithm` is called
at src/unnamed/part_000 line 189 but not defined under src/; per spec section
4.1 check 3, the signature algorithm must be a member of the configured
allow-list. -/
def isAllowedSignatureAlgorithm (c : Certificate) : Bool :=
  ALLOWED_SIGNATURE_ALGORITHMS.contains c.signatureAlgorithm

/-- Modelled from the spec: the helper `validateKeyUsage` is called at
src/unnamed/part_000 line 194 but not defined under src/; per spec section
4.1 check 4, the key usage flags must include all flags required for the
stated purpose; the configured required flags are `REQUIRED_KEY_USAGE`. -/
def validateKeyUsage (c : Certificate) (purpose : CertificatePurpose) : Bool :=
  REQUIRED_KEY_USAGE.all (fun u => c.keyUsage.contains u)

/-- Modelled from the spec: the helper `verifyRootCA` is called at
src/unnamed/part_000 line 208 but not defined under src/; per spec section
4.1 check 6, the final certificate must be present in the trust anchor set. -/
def verifyRootCA (trustAnchors : List Certificate) (c : Certificate) : Bool :=
  trustAnchors.contains c

/-- Typed failure reasons of the chain validator
(spec section 7; string literals in src/unnamed/part_000 lines 176-223). -/
inductive ChainFailure where
  | CHAIN_TOO_DEEP
  | CERTIFICATE_EXPIRED
  | UNSUPPORTED_SIGNATURE_ALGORITHM
  | INVALID_KEY_USAGE
  | INVALID_SIGNATURE
  | UNTRUSTED_ROOT
  | VALIDATION_ERROR
deriving DecidableEq, Repr

/-- Success details of chain validation
(`CertificateValidationResult.details`, src/unnamed/part_000 lines 362-369). -/
structure ValidationDetails where
  chainLength : Nat
  validationTimestamp : Nat
deriving DecidableEq, Repr

/-- `CertificateValidationResult` (src/unnamed/part_000 lines 362-369). -/
structure CertificateValidationResult where
  valid : Bool
  details : Option ValidationDetails
  error : Option ChainFailure
deriving DecidableEq, Repr

/-- Modelled from the spec: the helper `createValidationFailure` is called
throughout `validateCertificate` but not defined under src/; per the result
shape it yields an invalid result carrying the typed error. -/
def createValidationFailure (r : ChainFailure) : CertificateValidationResult :=
  { valid := false, details := none, error := some r }

/-- The per-certificate loop of `X509CertificateValidator.validateCertificate`
(src/unnamed/part_000 lines 180-212): for each index, check the validity
window, then the signature algorithm, then key usage, then (for index above
zero) the signature against the previous chain element, then (at the last
index) membership in the trust anchor set; the first failing check stops the
loop. `prev` is the previously visited certificate (`chain[i-1]`);
`sigVerify c p` embeds the undisplayed helper
`validateCertificateSignature(currentCert, parentCert)`. -/
def validateChainCerts (purpose : CertificatePurpose) (trustAnchors : List Certificate)
    (sigVerify : Certificate → Certificate → Bool) (now : Nat) :
    Option Certificate → List Certificate → Option ChainFailure
  | _, [] => none
  | prev, c :: rest =>
    if !isWithinValidityPeriod c now then some .CERTIFICATE_EXPIRED
    else if !isAllowedSignatureAlgorithm c then some .UNSUPPORTED_SIGNATURE_ALGORITHM
    else if !validateKeyUsage c purpose then some .INVALID_KEY_USAGE
    else if (match prev with | some p => !sigVerify c p | none => false) then
      some .INVALID_SIGNATURE
    else if rest.isEmpty && !verifyRootCA trustAnchors c then some .UNTRUSTED_ROOT
    else validateChainCerts purpose trustAnchors sigVerify now (some c) rest

/-- `X509CertificateValidator.validateCertificate`
(src/unnamed/part_000 lines 169-225): reject chains deeper than
`MAX_CHAIN_DEPTH`, then run the per-certificate loop; on success return
`valid` with the chain length and the ambient `Date.now()` value (embedded as
the explicit parameter `now`) as `validationTimestamp`. The trust anchor
store and signature-verification helper are instance state and an
undisplayed helper in the source, passed here as parameters. -/
def validateCertificate (certificateChain : List Certificate) (purpose : CertificatePurpose)
    (trustAnchors : List Certificate) (sigVerify : Certificate → Certificate → Bool)
    (now : Nat) : CertificateValidationResult :=
  if certificateChain.length > MAX_CHAIN_DEPTH then
    createValidationFailure .CHAIN_TOO_DEEP
  else
    match validateChainCerts purpose trustAnchors sigVerify now none certificateChain with
    | some r => createValidationFailure r
    | none =>
      { valid := true
        details := some { chainLength := certificateChain.length, validationTimestamp := now }
        error := none }

/-- All per-certificate checks of one loop iteration pass (validity window,
algorithm, key usage, and — when a previous chain element exists — the
signature check). Used to state the per-certificate sequencing of the
validator. -/
def certChecksPass (purpose : CertificatePurpose) (sigVerify : Certificate → Certificate → Bool)
    (now : Nat) (prev : Option Certificate) (c : Certificate) : Bool :=
  isWithinValidityPeriod c now && isAllowedSignatureAlgorithm c && validateKeyUsage c purpose &&
    (match prev with | some p => sigVerify c p | none => true)

/-- Every certificate of the list passes all its per-certificate checks, each
checked against its predecessor in the chain. -/
def passAllFrom (purpose : CertificatePurpose) (sigVerify : Certificate → Certificate → Bool)
    (now : Nat) : Option Certificate → List Certificate → Bool
  | _, [] => true
  | prev, c :: cs =>
    certChecksPass purpose sigVerify now prev c && passAllFrom purpose sigVerify now (some c) cs

/-- Token metadata (`SecureToken.metadata`, src/unnamed/part_000 lines 379-382). -/
structure TokenMetadata where
  ipAddress : String
  deviceFingerprint : String
deriving DecidableEq, Repr

/-- `SecureToken` (src/unnamed/part_000 lines 372-383). -/
structure SecureToken where
  id : String
  userId : String
  agencyId : String
  accessLevel : AccessLevel
  createdAt : Nat
  expiresAt : Nat
  metadata : TokenMetadata
deriving DecidableEq, Repr

/-- `TokenValidationResult` (src/unnamed/part_000 lines 385-389); the fields
the source leaves undefined on one branch are embedded as `none`. -/
structure TokenValidationResult where
  valid : Bool
  reason : Option String
  remainingValidity : Option Nat
deriving DecidableEq, Repr

/-- `SecureTokenManager.validateToken` (src/unnamed/part_000 lines 264-281):
fail with TOKEN_EXPIRED when the ambient `Date.now()` (embedded as the
explicit parameter `now`) exceeds `expiresAt`, otherwise succeed with the
remaining validity. -/
def validateToken (token : SecureToken) (now : Nat) : TokenValidationResult :=
  if now > token.expiresAt then
    { valid := false, reason := some "TOKEN_EXPIRED", remainingValidity := none }
  else
    { valid := true, reason := none, remainingValidity := some (token.expiresAt - now) }

/-- Two lowercase hex digits of one byte, as produced by
`Buffer.toString('hex')`. -/
def hexByte (b : Nat) : List Char :=
  [Nat.digitChar (b / 16), Nat.digitChar (b % 16)]

/-- `SecureTokenManager.TOKEN_CONFIG.generateTokenId`
(src/unnamed/part_000 lines 238-240): `crypto.randomBytes(32).toString('hex')`.
The secure random source is embedded as the explicit byte list it produced. -/
def generateTokenId (randomBytes : List Nat) : String :=
  String.mk ((randomBytes.map hexByte).flatten)

/-- Verification step types (gov-workflow-logging-compliance.ts line 461). -/
inductive VerificationStepType where
  | BIOMETRIC
  | SECONDARY_CREDENTIAL
  | LOCATION_VERIFICATION
deriving DecidableEq, Repr

/-- `VerificationStep` (gov-workflow-logging-compliance.ts lines 460-464). -/
structure VerificationStep where
  type : VerificationStepType
  description : String
  mandatory : Bool
deriving DecidableEq, Repr

/-- `AgencyAuthenticationProfile.authenticationRequirements`
(gov-workflow-logging-compliance.ts lines 449-453). -/
structure AuthenticationRequirements where
  requiredAccessLevel : AccessLevel
  mandatoryRoleVerification : Bool
  additionalVerificationSteps : Option (List VerificationStep)
deriving DecidableEq, Repr

/-- `AgencyAuthenticationProfile` (gov-workflow-logging-compliance.ts lines
446-457); the workflow-access map is embedded as an association list. -/
structure AgencyAuthenticationProfile where
  agencyId : String
  name : String
  authenticationRequirements : AuthenticationRequirements
  workflowAccessControls : List (String × List AccessLevel)
deriving DecidableEq, Repr

/-- `CAC_PIV_Credentials` (gov-workflow-logging-compliance.ts lines 428-434). -/
structure CAC_PIV_Credentials where
  cardSerialNumber : String
  organizationUnit : String
  userDistinguishedName : String
  accessLevel : AccessLevel
  certificateChain : String
deriving DecidableEq, Repr

/-- `WorkflowAccessDecision` as constructed by `authorizeWorkflowAccess`
(gov-workflow-logging-compliance.ts lines 518-531). -/
structure WorkflowAccessDecision where
  authorized : Bool
  reason : String
deriving DecidableEq, Repr

/-- The `agencyProfiles` map of `GovernmentAuthenticationManager`
(gov-workflow-logging-compliance.ts line 468), embedded as an
insertion-ordered association list. -/
abbrev AgencyRegistry := List (String × AgencyAuthenticationProfile)

/-- Lookup in the agency registry (`Map.get` semantics: the binding for the
key, if present). -/
def lookupProfile : AgencyRegistry → String → Option AgencyAuthenticationProfile
  | [], _ => none
  | (k, v) :: rest, x => if k = x then some v else lookupProfile rest x

/-- `GovernmentAuthenticationManager.registerAgencyAuthenticationProfile`
(gov-workflow-logging-compliance.ts lines 535-537): `Map.set` keyed by
`profile.agencyId` — replace the existing binding in place, else append. -/
def registerAgencyAuthenticationProfile : AgencyRegistry → AgencyAuthenticationProfile →
    AgencyRegistry
  | [], p => [(p.agencyId, p)]
  | (k, v) :: rest, p =>
    if k = p.agencyId then (k, p) :: rest
    else (k, v) :: registerAgencyAuthenticationProfile rest p

/-- Modelled from the spec: `getAgencyProfile` is called at
gov-workflow-logging-compliance.ts line 516 but not defined under src/; per
spec section 4.4 it looks the agency profile up in the registry by the
identity's agency identifier. -/
def getAgencyProfile (m : AgencyRegistry) (ou : String) : Option AgencyAuthenticationProfile :=
  lookupProfile m ou

/-- The permitted access levels for a workflow type:
`agencyProfile.workflowAccessControls[workflowType] || []`
(gov-workflow-logging-compliance.ts line 525) — the stored list when the
entry is present, the empty list when absent. -/
def lookupWorkflowAccess (wac : List (String × List AccessLevel)) (workflowType : String) :
    List AccessLevel :=
  match wac.find? (fun e => e.1 = workflowType) with
  | some e => e.2
  | none => []

/-- `GovernmentAuthenticationManager.authorizeWorkflowAccess`
(gov-workflow-logging-compliance.ts lines 512-532). -/
def authorizeWorkflowAccess (m : AgencyRegistry) (credentials : CAC_PIV_Credentials)
    (workflowType : String) : WorkflowAccessDecision :=
  match getAgencyProfile m credentials.organizationUnit with
  | none => { authorized := false, reason := "UNKNOWN_AGENCY" }
  | some agencyProfile =>
    let permittedAccessLevels := lookupWorkflowAccess agencyProfile.workflowAccessControls
      workflowType
    let isAuthorized := permittedAccessLevels.contains credentials.accessLevel
    { authorized := isAuthorized
      reason := if isAuthorized then "ACCESS_GRANTED" else "INSUFFICIENT_PRIVILEGES" }

/-- `defenseLogisticsAgencyProfile`
(gov-workflow-logging-compliance.ts lines 633-657). -/
def defenseLogisticsAgencyProfile : AgencyAuthenticationProfile :=
  { agencyId := "DLA_001"
    name := "Defense Logistics Agency"
    authenticationRequirements :=
      { requiredAccessLevel := .PRIVILEGED
        mandatoryRoleVerification := true
        additionalVerificationSteps := some
          [{ type := .SECONDARY_CREDENTIAL
             description := "Additional Security Token Required"
             mandatory := true }] }
    workflowAccessControls :=
      [("BID_SUBMISSION", [.STANDARD, .PRIVILEGED]),
       ("BID_TRACKING", [.PRIVILEGED, .EXECUTIVE])] }

/-- `ValidationResult` as consumed by the credential verifier
(gov-workflow-logging-compliance.ts lines 475-488): a validity flag plus the
error message reported for a failing check. -/
structure ValidationResult where
  valid : Bool
  errorMessage : String
deriving DecidableEq, Repr

/-- The `userProfile` of a successful authentication
(gov-workflow-logging-compliance.ts lines 497-501). -/
structure UserProfile where
  userId : String
  accessLevel : AccessLevel
  agency : String
deriving DecidableEq, Repr

/-- `AuthenticationResult` as constructed by `verifyCAC_PIV_Credentials`
(gov-workflow-logging-compliance.ts lines 484-502); fields the source leaves
undefined on a branch are embedded as `none` or `[]`. -/
structure AuthenticationResult where
  authenticated : Bool
  errorDetails : List String
  sessionToken : Option String
  userProfile : Option UserProfile
deriving DecidableEq, Repr

/-- `GovernmentAuthenticationManager.extractAgencyFromOrganizationalUnit`
(gov-workflow-logging-compliance.ts lines 561-565): `ou.split(',')[0]`. -/
def extractAgencyFromOrganizationalUnit (ou : String) : String :=
  (ou.split (fun ch => ch = ',')).headD ""

/-- `GovernmentAuthenticationManager.generateSecureSessionToken`
(gov-workflow-logging-compliance.ts lines 555-559): the template literal
`GOV_AUTH_${Date.now()}_${credentials.cardSerialNumber}`, with the ambient
`Date.now()` embedded as the explicit parameter `now`. -/
def generateSecureSessionToken (credentials : CAC_PIV_Credentials) (now : Nat) : String :=
  "GOV_AUTH_" ++ toString now ++ "_" ++ credentials.cardSerialNumber

/-- `GovernmentAuthenticationManager.verifyCAC_PIV_Credentials`
(gov-workflow-logging-compliance.ts lines 472-509): run the three credential
checks, collect the failing ones, and report every failing check's error
message; on success issue a session token and the user profile. The three
private checks are demonstration stubs in the source (lines 540-553, each
commented "Implement ..." and returning valid), so they are passed here as
parameters. -/
def verifyCAC_PIV_Credentials
    (validateCertificateChainCheck : String → ValidationResult)
    (verifyOrganizationalUnit : String → ValidationResult)
    (checkAccessLevelAuthorization : CAC_PIV_Credentials → ValidationResult)
    (credentials : CAC_PIV_Credentials) (now : Nat) : AuthenticationResult :=
  let validationResults :=
    [validateCertificateChainCheck credentials.certificateChain,
     verifyOrganizationalUnit credentials.organizationUnit,
     checkAccessLevelAuthorization credentials]
  let failedValidations := validationResults.filter (fun result => !result.valid)
  if failedValidations.length > 0 then
    { authenticated := false
      errorDetails := failedValidations.map (fun val => val.errorMessage)
      sessionToken := none
      userProfile := none }
  else
    { authenticated := true
      errorDetails := []
      sessionToken := some (generateSecureSessionToken credentials now)
      userProfile := some
        { userId := credentials.userDistinguishedName
          accessLevel := credentials.accessLevel
          agency := extractAgencyFromOrganizationalUnit credentials.organizationUnit } }


/-! ## Concrete fixtures -/

/-- A signature-verification oracle accepting every pair, for inputs whose
claims do not depend on signature semantics. -/
def trivialSigVerify : Certificate → Certificate → Bool := fun _ _ => true

/-- A certificate passing every per-certificate check at time 1000. -/
def goodCert : Certificate :=
  { subject := "leaf", issuer := "intermediate", notBefore := 0, notAfter := 100000
    signatureAlgorithm := "SHA256withRSA"
    keyUsage := ["digitalSignature", "keyEncipherment"] }

/-- A certificate valid in time at 1000 but signed with an algorithm outside
the allow-list. -/
def badAlgCert : Certificate :=
  { subject := "leaf", issuer := "intermediate", notBefore := 0, notAfter := 100000
    signatureAlgorithm := "MD5withRSA"
    keyUsage := ["digitalSignature", "keyEncipherment"] }

/-- A certificate whose validity window excludes time 1000. -/
def expiredCert : Certificate :=
  { subject := "intermediate", issuer := "root", notBefore := 0, notAfter := 50
    signatureAlgorithm := "SHA256withRSA"
    keyUsage := ["digitalSignature", "keyEncipherment"] }

/-- Test credentials mirroring the DLA test user of the source's test dataset. -/
def testCredentials : CAC_PIV_Credentials :=
  { cardSerialNumber := "TEST_CAC_12345", organizationUnit := "DLA_001"
    userDistinguishedName := "CN=Test User", accessLevel := .PRIVILEGED
    certificateChain := "chain" }

/-- The same credentials with a longer card serial number. -/
def longSerialCredentials : CAC_PIV_Credentials :=
  { testCredentials with cardSerialNumber := "TEST_CAC_12345_EXTENDED" }

/-- The same credentials with the lowest access level. -/
def restrictedCredentials : CAC_PIV_Credentials :=
  { testCredentials with accessLevel := .RESTRICTED }

/-- A concrete session token expiring at time 1000. -/
def testToken : SecureToken :=
  { id := "token-1", userId := "user-1", agencyId := "DLA_001", accessLevel := .STANDARD
    createdAt := 0, expiresAt := 1000
    metadata := { ipAddress := "127.0.0.1", deviceFingerprint := "fp" } }

/-- A registry holding only the Defense Logistics Agency profile. -/
def dlaRegistry : AgencyRegistry :=
  registerAgencyAuthenticationProfile [] defenseLogisticsAgencyProfile

/-- Version 1 of a DLA profile: permits CONTRACT_REVIEW to PRIVILEGED. -/
def profileV1 : AgencyAuthenticationProfile :=
  { agencyId := "DLA_001", name := "Defense Logistics Agency"
    authenticationRequirements :=
      { requiredAccessLevel := .PRIVILEGED, mandatoryRoleVerification := false
        additionalVerificationSteps := none }
    workflowAccessControls := [("CONTRACT_REVIEW", [.PRIVILEGED])] }

/-- Version 2 of the same agency's profile: omits CONTRACT_REVIEW. -/
def profileV2 : AgencyAuthenticationProfile :=
  { agencyId := "DLA_001", name := "Defense Logistics Agency"
    authenticationRequirements :=
      { requiredAccessLevel := .PRIVILEGED, mandatoryRoleVerification := false
        additionalVerificationSteps := none }
    workflowAccessControls := [("BID_TRACKING", [.EXECUTIVE])] }

/-- A credential check that fails with a chain error. -/
def failingChainCheck : String → ValidationResult :=
  fun _ => { valid := false, errorMessage := "CERTIFICATE_CHAIN_INVALID" }

/-- A credential check that passes. -/
def passingOUCheck : String → ValidationResult :=
  fun _ => { valid := true, errorMessage := "" }

/-- A credential check that fails with an access-level error. -/
def failingAccessCheck : CAC_PIV_Credentials → ValidationResult :=
  fun _ => { valid := false, errorMessage := "ACCESS_LEVEL_INVALID" }

/-! ## Helper lemmas -/

/-- Registration is a keyed upsert: lookup after registration finds the new
profile at its agency id and is unchanged elsewhere. -/
theorem lookupProfile_register (m : AgencyRegistry) (p : AgencyAuthenticationProfile)
    (x : String) :
    lookupProfile (registerAgencyAuthenticationProfile m p) x =
      if x = p.agencyId then some p else lookupProfile m x := by
  induction m with
  | nil =>
    simp only [registerAgencyAuthenticationProfile, lookupProfile]
    by_cases h : x = p.agencyId
    · simp [h]
    · simp [h, Ne.symm h]
  | cons head tail ih =>
    obtain ⟨k, v⟩ := head
    simp only [registerAgencyAuthenticationProfile]
    by_cases hk : k = p.agencyId
    · rw [if_pos hk]
      by_cases hx : x = k
      · subst hx
        simp [lookupProfile, hk]
      · have hxp : ¬ x = p.agencyId := fun hh => hx (hh.trans hk.symm)
        simp [lookupProfile, Ne.symm hx, hxp]
    · rw [if_neg hk]
      by_cases hx : k = x
      · have hxp : ¬ x = p.agencyId := fun hh => hk (hx.trans hh)
        simp [lookupProfile, hx, hxp]
      · simp [lookupProfile, hx, ih]

/-- The authorization decision depends on the registry only through the
profile looked up for the identity's agency. -/
theorem authorizeWorkflowAccess_congr {m m' : AgencyRegistry} (c : CAC_PIV_Credentials)
    (wt : String)
    (h : getAgencyProfile m c.organizationUnit = getAgencyProfile m' c.organizationUnit) :
    authorizeWorkflowAccess m c wt = authorizeWorkflowAccess m' c wt := by
  unfold authorizeWorkflowAccess
  rw [h]

/-- If every certificate of a prefix passes all its per-certificate checks
and the next certificate fails the validity-window check, the loop stops
there with CERTIFICATE_EXPIRED. -/
theorem validateChainCerts_expired_after_clean (purpose : CertificatePurpose)
    (trustAnchors : List Certificate) (sigVerify : Certificate → Certificate → Bool)
    (now : Nat) :
    ∀ (pre : List Certificate) (prev : Option Certificate) (c : Certificate)
      (post : List Certificate),
      passAllFrom purpose sigVerify now prev pre = true →
      isWithinValidityPeriod c now = false →
      validateChainCerts purpose trustAnchors sigVerify now prev (pre ++ c :: post) =
        some .CERTIFICATE_EXPIRED := by
  intro pre
  induction pre with
  | nil =>
    intro prev c post _ hc
    simp [validateChainCerts, hc]
  | cons q qs ih =>
    intro prev c post hpass hc
    simp only [passAllFrom, certChecksPass, Bool.and_eq_true] at hpass
    obtain ⟨⟨⟨⟨hval, halg⟩, hku⟩, hsig⟩, hrest⟩ := hpass
    have hne : ¬ (qs ++ c :: post).isEmpty = true := by
      cases qs <;> simp [List.isEmpty]
    simp only [List.cons_append, validateChainCerts, hval, halg, hku]
    cases prev with
    | none =>
      simp [hne]
      exact ih (some q) c post hrest hc
    | some p =>
      have hsig' : sigVerify q p = true := by simpa using hsig
      simp [hsig', hne]
      exact ih (some q) c post hrest hc

/-! ## Claim theorems -/

/-- C4: for every certificate chain longer than the configured maximum depth
(default 5), `validateCertificate` returns CHAIN_TOO_DEEP, and none of the
subsequent checks is applied — the result is the same for every purpose,
trust anchor set, signature oracle and current time. -/
theorem validateCertificate_chain_too_deep (certificateChain : List Certificate)
    (purpose : CertificatePurpose) (trustAnchors : List Certificate)
    (sigVerify : Certificate → Certificate → Bool) (now : Nat)
    (h : certificateChain.length > MAX_CHAIN_DEPTH) :
    validateCertificate certificateChain purpose trustAnchors sigVerify now =
      createValidationFailure .CHAIN_TOO_DEEP := by
  unfold validateCertificate
  rw [if_pos h]

/-- Witness for C4: a chain of six certificates exceeds the depth limit and
is rejected with CHAIN_TOO_DEEP. -/
theorem validateCertificate_chain_too_deep_witness :
    List.length [goodCert, goodCert, goodCert, goodCert, goodCert, goodCert] >
      MAX_CHAIN_DEPTH ∧
    validateCertificate [goodCert, goodCert, goodCert, goodCert, goodCert, goodCert]
        .AUTHENTICATION [] trivialSigVerify 1000 =
      createValidationFailure .CHAIN_TOO_DEEP :=
  ⟨by decide,
   validateCertificate_chain_too_deep _ _ _ _ _ (by decide)⟩

/-- C10: for the empty certificate chain, `validateCertificate` succeeds with
chainLength 0 for every purpose, trust anchor set (including the empty one),
signature oracle and current time: the per-certificate loop and the
trust-anchor membership check are never executed. -/
theorem validateCertificate_empty_chain_succeeds (purpose : CertificatePurpose)
    (trustAnchors : List Certificate) (sigVerify : Certificate → Certificate → Bool)
    (now : Nat) :
    validateCertificate [] purpose trustAnchors sigVerify now =
      { valid := true
        details := some { chainLength := 0, validationTimestamp := now }
        error := none } :=
  rfl

/-- C5 counterexample: a depth-respecting chain whose second certificate is
expired but whose first certificate uses a disallowed signature algorithm is
rejected with UNSUPPORTED_SIGNATURE_ALGORITHM, not with CERTIFICATE_EXPIRED:
the validity-window check is not applied to every certificate before any
signature-algorithm check. -/
theorem validateCertificate_per_cert_order_cx :
    List.length [badAlgCert, expiredCert] ≤ MAX_CHAIN_DEPTH ∧
    isWithinValidityPeriod expiredCert 1000 = false ∧
    validateCertificate [badAlgCert, expiredCert] .AUTHENTICATION [] trivialSigVerify 1000 =
      createValidationFailure .UNSUPPORTED_SIGNATURE_ALGORITHM ∧
    validateCertificate [badAlgCert, expiredCert] .AUTHENTICATION [] trivialSigVerify 1000 ≠
      createValidationFailure .CERTIFICATE_EXPIRED := by
  refine ⟨by decide, by decide, by decide, by decide⟩

/-- C5 amended: checks are applied per certificate in chain order,
short-circuiting on the first failing check; hence for every chain within
the depth limit, if some certificate fails the validity-window check and
every earlier certificate passes all of its per-certificate checks, the
result is CERTIFICATE_EXPIRED. -/
theorem validateCertificate_expired_after_clean_blocks (purpose : CertificatePurpose)
    (trustAnchors : List Certificate) (sigVerify : Certificate → Certificate → Bool)
    (now : Nat) (pre : List Certificate) (c : Certificate) (post : List Certificate)
    (hlen : (pre ++ c :: post).length ≤ MAX_CHAIN_DEPTH)
    (hpre : passAllFrom purpose sigVerify now none pre = true)
    (hc : isWithinValidityPeriod c now = false) :
    validateCertificate (pre ++ c :: post) purpose trustAnchors sigVerify now =
      createValidationFailure .CERTIFICATE_EXPIRED := by
  unfold validateCertificate
  rw [if_neg (by omega)]
  rw [validateChainCerts_expired_after_clean purpose trustAnchors sigVerify now pre none c post
    hpre hc]

/-- Witness for C5 amended: a clean leaf followed by an expired certificate
yields CERTIFICATE_EXPIRED. -/
theorem validateCertificate_expired_after_clean_blocks_witness :
    validateCertificate [goodCert, expiredCert] .AUTHENTICATION [] trivialSigVerify 1000 =
      createValidationFailure .CERTIFICATE_EXPIRED :=
  validateCertificate_expired_after_clean_blocks .AUTHENTICATION [] trivialSigVerify 1000
    [goodCert] expiredCert [] (by decide) (by decide) (by decide)

/-- C7 counterexample: the validator reads the ambient wall clock — embedded
as the `now` parameter standing for the internal `Date.now()` calls — so two
runs on identical declared inputs (chain, purpose, trust anchors, signature
oracle) at different wall-clock instants produce different results: the
success details embed the clock reading. -/
theorem validateCertificate_wall_clock_dependence_cx :
    validateCertificate [] .AUTHENTICATION [] trivialSigVerify 0 ≠
      validateCertificate [] .AUTHENTICATION [] trivialSigVerify 1 := by
  decide

/-- C7 amended: the validator is deterministic given the ambient clock value,
but it does read the wall clock internally: every successful result's
details consist of the chain length and exactly the ambient `Date.now()`
reading. -/
theorem validateCertificate_success_details_carry_ambient_now
    (certificateChain : List Certificate) (purpose : CertificatePurpose)
    (trustAnchors : List Certificate) (sigVerify : Certificate → Certificate → Bool)
    (now : Nat)
    (h : (validateCertificate certificateChain purpose trustAnchors sigVerify now).valid =
      true) :
    (validateCertificate certificateChain purpose trustAnchors sigVerify now).details =
      some { chainLength := certificateChain.length, validationTimestamp := now } := by
  unfold validateCertificate at h ⊢
  by_cases hlen : certificateChain.length > MAX_CHAIN_DEPTH
  · rw [if_pos hlen] at h
    simp [createValidationFailure] at h
  · rw [if_neg hlen] at h ⊢
    cases hm : validateChainCerts purpose trustAnchors sigVerify now none certificateChain with
    | some r =>
      rw [hm] at h
      simp [createValidationFailure] at h
    | none =>
      rfl

/-- Witness for C7 amended: the empty chain validates successfully at time 42
and its details carry timestamp 42. -/
theorem validateCertificate_success_details_carry_ambient_now_witness :
    (validateCertificate [] .AUTHENTICATION [] trivialSigVerify 42).details =
      some { chainLength := 0, validationTimestamp := 42 } :=
  validateCertificate_success_details_carry_ambient_now [] .AUTHENTICATION [] trivialSigVerify
    42 (by decide)

/-- C6: token validation fails with TOKEN_EXPIRED exactly when the current
time strictly exceeds the expiry timestamp, and otherwise succeeds with
remaining validity equal to expiresAt minus now. -/
theorem validateToken_expiry_boundary (token : SecureToken) (now : Nat) :
    (validateToken token now =
        { valid := false, reason := some "TOKEN_EXPIRED", remainingValidity := none } ↔
      now > token.expiresAt) ∧
    (now ≤ token.expiresAt →
      validateToken token now =
        { valid := true, reason := none
          remainingValidity := some (token.expiresAt - now) }) := by
  constructor
  · constructor
    · intro h
      by_contra hn
      push_neg at hn
      unfold validateToken at h
      rw [if_neg (by omega)] at h
      simp at h
    · intro h
      unfold validateToken
      rw [if_pos h]
  · intro h
    unfold validateToken
    rw [if_neg (by omega)]

/-- Witness for C6: one millisecond past expiry, validation fails with
TOKEN_EXPIRED. -/
theorem validateToken_expiry_boundary_witness :
    validateToken testToken (testToken.expiresAt + 1) =
      { valid := false, reason := some "TOKEN_EXPIRED", remainingValidity := none } :=
  (validateToken_expiry_boundary testToken (testToken.expiresAt + 1)).1.mpr (by decide)

/-- C1 (code bug in `generateSecureSessionToken`): evaluated at the failing
input — issuance calls landing on the same `Date.now()` millisecond
1700000000000 with card serial TEST_CAC_12345 — the session token identifier
is the fully determined string GOV_AUTH_1700000000000_TEST_CAC_12345, so all
such issuances collide; and the identifier's length varies with the card
serial, so it is not a fixed-length rendering of a 256-bit random value. -/
theorem gov_session_token_collides_and_varies_in_length :
    generateSecureSessionToken testCredentials 1700000000000 =
      "GOV_AUTH_1700000000000_TEST_CAC_12345" ∧
    (generateSecureSessionToken testCredentials 1700000000000).length ≠
      (generateSecureSessionToken longSerialCredentials 1700000000000).length := by
  refine ⟨by decide, by decide⟩

/-- C3: authorization fails closed with UNKNOWN_AGENCY when no profile is
registered for the identity's agency; with a registered profile it grants
access iff the identity's access level is a member of the permitted set for
the workflow type (an absent entry permitting no one), and denies with
INSUFFICIENT_PRIVILEGES otherwise. -/
theorem authorize_fail_closed_and_membership (m : AgencyRegistry)
    (credentials : CAC_PIV_Credentials) (workflowType : String) :
    (getAgencyProfile m credentials.organizationUnit = none →
      authorizeWorkflowAccess m credentials workflowType =
        { authorized := false, reason := "UNKNOWN_AGENCY" }) ∧
    (∀ p, getAgencyProfile m credentials.organizationUnit = some p →
      ((authorizeWorkflowAccess m credentials workflowType =
          { authorized := true, reason := "ACCESS_GRANTED" } ↔
        credentials.accessLevel ∈
          lookupWorkflowAccess p.workflowAccessControls workflowType) ∧
       (credentials.accessLevel ∉
          lookupWorkflowAccess p.workflowAccessControls workflowType →
        authorizeWorkflowAccess m credentials workflowType =
          { authorized := false, reason := "INSUFFICIENT_PRIVILEGES" }))) := by
  constructor
  · intro h
    unfold authorizeWorkflowAccess
    rw [h]
  · intro p hp
    unfold authorizeWorkflowAccess
    rw [hp]
    by_cases hm : credentials.accessLevel ∈
      lookupWorkflowAccess p.workflowAccessControls workflowType
    · constructor
      · simp [hm]
      · intro hn
        exact absurd hm hn
    · constructor
      · simp [hm]
      · intro _
        simp [hm]

/-- Witness for C3: with only the DLA profile registered, RESTRICTED
credentials are denied BID_SUBMISSION with INSUFFICIENT_PRIVILEGES. -/
theorem authorize_fail_closed_and_membership_witness :
    authorizeWorkflowAccess dlaRegistry restrictedCredentials "BID_SUBMISSION" =
      { authorized := false, reason := "INSUFFICIENT_PRIVILEGES" } :=
  ((authorize_fail_closed_and_membership dlaRegistry restrictedCredentials
      "BID_SUBMISSION").2 defenseLogisticsAgencyProfile (by decide)).2 (by decide)

/-- C2 counterexample: the registered DLA profile marks
mandatoryRoleVerification and declares a mandatory additional verification
step, yet `authorizeWorkflowAccess` — which takes no secondary-verification
evidence at all — returns Authorized for PRIVILEGED credentials on
BID_SUBMISSION; no SECONDARY_VERIFICATION_REQUIRED denial is produced. -/
theorem authorize_ignores_mandatory_secondary_verification_cx :
    defenseLogisticsAgencyProfile.authenticationRequirements.mandatoryRoleVerification =
      true ∧
    (defenseLogisticsAgencyProfile.authenticationRequirements.additionalVerificationSteps.map
      (fun steps => steps.any (fun s => s.mandatory))) = some true ∧
    authorizeWorkflowAccess dlaRegistry testCredentials "BID_SUBMISSION" =
      { authorized := true, reason := "ACCESS_GRANTED" } := by
  refine ⟨rfl, rfl, by decide⟩

/-- C2 amended: `authorizeWorkflowAccess` silently ignores the profile's
secondary-verification requirements: the decision is unchanged under any
replacement of the profile's authenticationRequirements, and the reason
SECONDARY_VERIFICATION_REQUIRED is never returned. -/
theorem authorize_insensitive_to_secondary_verification :
    (∀ (m : AgencyRegistry) (p : AgencyAuthenticationProfile)
        (reqs : AuthenticationRequirements) (credentials : CAC_PIV_Credentials)
        (workflowType : String),
      authorizeWorkflowAccess (registerAgencyAuthenticationProfile m p) credentials
          workflowType =
        authorizeWorkflowAccess
          (registerAgencyAuthenticationProfile m { p with authenticationRequirements := reqs })
          credentials workflowType) ∧
    (∀ (m : AgencyRegistry) (credentials : CAC_PIV_Credentials) (workflowType : String),
      (authorizeWorkflowAccess m credentials workflowType).reason ≠
        "SECONDARY_VERIFICATION_REQUIRED") := by
  constructor
  · intro m p reqs credentials workflowType
    unfold authorizeWorkflowAccess getAgencyProfile
    rw [lookupProfile_register, lookupProfile_register]
    by_cases h : credentials.organizationUnit = p.agencyId
    · simp [h]
    · simp [h]
  · intro m credentials workflowType
    unfold authorizeWorkflowAccess
    cases getAgencyProfile m credentials.organizationUnit with
    | none => simp
    | some p =>
      by_cases hb : credentials.accessLevel ∈
          lookupWorkflowAccess p.workflowAccessControls workflowType
      · simp [hb]
      · simp [hb]

/-- C8: registering a second profile for the same agency id makes
authorization decisions identical to those over a registry that only ever
saw the second profile (overwrite, not merge); in particular a workflow type
the first profile permitted but the second omits is denied with
INSUFFICIENT_PRIVILEGES. -/
theorem register_overwrites_prior_profile (m : AgencyRegistry)
    (p1 p2 : AgencyAuthenticationProfile) (credentials : CAC_PIV_Credentials)
    (workflowType : String) (hid : p1.agencyId = p2.agencyId) :
    (authorizeWorkflowAccess
        (registerAgencyAuthenticationProfile (registerAgencyAuthenticationProfile m p1) p2)
        credentials workflowType =
      authorizeWorkflowAccess (registerAgencyAuthenticationProfile m p2) credentials
        workflowType) ∧
    (credentials.organizationUnit = p2.agencyId →
      credentials.accessLevel ∈ lookupWorkflowAccess p1.workflowAccessControls workflowType →
      lookupWorkflowAccess p2.workflowAccessControls workflowType = [] →
      authorizeWorkflowAccess
          (registerAgencyAuthenticationProfile (registerAgencyAuthenticationProfile m p1) p2)
          credentials workflowType =
        { authorized := false, reason := "INSUFFICIENT_PRIVILEGES" }) := by
  constructor
  · apply authorizeWorkflowAccess_congr
    unfold getAgencyProfile
    rw [lookupProfile_register, lookupProfile_register, lookupProfile_register]
    by_cases h : credentials.organizationUnit = p2.agencyId
    · simp [h]
    · have h1 : ¬ credentials.organizationUnit = p1.agencyId := by
        rw [hid]; exact h
      simp [h, h1]
  · intro hou hmem1 hempty
    unfold authorizeWorkflowAccess getAgencyProfile
    rw [lookupProfile_register]
    rw [if_pos hou]
    simp [hempty]

/-- Witness for C8: CONTRACT_REVIEW is permitted to PRIVILEGED by profileV1
only; after profileV2 (same agency id, no CONTRACT_REVIEW entry) is
registered on top, PRIVILEGED credentials are denied. -/
theorem register_overwrites_prior_profile_witness :
    authorizeWorkflowAccess
        (registerAgencyAuthenticationProfile
          (registerAgencyAuthenticationProfile [] profileV1) profileV2)
        testCredentials "CONTRACT_REVIEW" =
      { authorized := false, reason := "INSUFFICIENT_PRIVILEGES" } :=
  (register_overwrites_prior_profile [] profileV1 profileV2 testCredentials
      "CONTRACT_REVIEW" (by decide)).2 (by decide) (by decide) (by decide)

/-- C9: credential verification does not short-circuit — every check whose
result is invalid has its error message reported in the unauthenticated
result's errorDetails. -/
theorem verifyCredentials_reports_every_failing_check
    (validateCertificateChainCheck : String → ValidationResult)
    (verifyOrganizationalUnit : String → ValidationResult)
    (checkAccessLevelAuthorization : CAC_PIV_Credentials → ValidationResult)
    (credentials : CAC_PIV_Credentials) (now : Nat) (r : ValidationResult)
    (hmem : r ∈ [validateCertificateChainCheck credentials.certificateChain,
      verifyOrganizationalUnit credentials.organizationUnit,
      checkAccessLevelAuthorization credentials])
    (hfail : r.valid = false) :
    (verifyCAC_PIV_Credentials validateCertificateChainCheck verifyOrganizationalUnit
        checkAccessLevelAuthorization credentials now).authenticated = false ∧
    r.errorMessage ∈ (verifyCAC_PIV_Credentials validateCertificateChainCheck
        verifyOrganizationalUnit checkAccessLevelAuthorization credentials now).errorDetails := by
  have hr : r ∈ ([validateCertificateChainCheck credentials.certificateChain,
      verifyOrganizationalUnit credentials.organizationUnit,
      checkAccessLevelAuthorization credentials].filter (fun result => !result.valid)) :=
    List.mem_filter.mpr ⟨hmem, by simp [hfail]⟩
  have hpos : 0 < ([validateCertificateChainCheck credentials.certificateChain,
      verifyOrganizationalUnit credentials.organizationUnit,
      checkAccessLevelAuthorization credentials].filter
        (fun result => !result.valid)).length :=
    List.length_pos.mpr (List.ne_nil_of_mem hr)
  unfold verifyCAC_PIV_Credentials
  rw [if_pos hpos]
  exact ⟨rfl, List.mem_map_of_mem _ hr⟩

/-- Witness for C9: with the chain check and the access-level check failing,
the access-level error message appears in the reported errorDetails. -/
theorem verifyCredentials_reports_every_failing_check_witness :
    (verifyCAC_PIV_Credentials failingChainCheck passingOUCheck failingAccessCheck
        testCredentials 0).authenticated = false ∧
    "ACCESS_LEVEL_INVALID" ∈ (verifyCAC_PIV_Credentials failingChainCheck passingOUCheck
        failingAccessCheck testCredentials 0).errorDetails :=
  verifyCredentials_reports_every_failing_check failingChainCheck passingOUCheck
    failingAccessCheck testCredentials 0
    { valid := false, errorMessage := "ACCESS_LEVEL_INVALID" } (by decide) rfl

/-- Supporting fact: part_000's `generateTokenId` renders its random bytes as
a fixed-length string, two hex characters per byte — 64 characters for the 32
bytes the source requests. -/
theorem generateTokenId_length (randomBytes : List Nat) :
    (generateTokenId randomBytes).length = 2 * randomBytes.length := by
  have hlist : ∀ bs : List Nat, ((bs.map hexByte).flatten).length = 2 * bs.length := by
    intro bs
    induction bs with
    | nil => simp
    | cons b tl ih =>
      simp [hexByte, ih]
      omega
  have hs : (generateTokenId randomBytes).length =
      ((randomBytes.map hexByte).flatten).length := rfl
  rw [hs, hlist randomBytes]
